import Mathlib

/-!
Verification of the `haweatherstation` repository: a bridge between an
rtl_433 decoder subprocess and the Home Assistant REST API.

The development shallowly embeds the three Python source files:

* `weatherstation.py` — `WeatherStation.run_loop` (line filtering and JSON
  decoding) and `WeatherData.__post_init__` (typed field conversion);
* `hassapi.py` — `HassAPI` (`_format_entity_url`, `get_entity_state`,
  `post_entity_state`) and `HassEntity` (`__post_init__`, `update`);
* `__main__.py` — glue only, out of the verified core.

Modelling conventions:

* Python runtime values that can occur on these code paths are the type
  `PyVal` (`None`, `bool`, `int`, `float`, `str`, `list`, `dict`).
  Python floats are modelled as rationals (`Rat`); every float on the
  verified paths originates from a decimal JSON literal or from decimal
  rounding, so IEEE-754 binary artefacts (and `inf`/`nan` parsing) are
  outside the model.
* Python exceptions are modelled by `Except PyErr`; `PyErr` distinguishes
  `ValueError`, `TypeError` and connection errors, because
  `HassEntity.update` catches only `ValueError` around the coercion.
* The HTTP transport (`requests`) is modelled by an oracle argument
  `resp : Option Nat`: `some status` is the status code of the response that
  the session finally returns (retries are transparent), `none` means the
  transport raised a connection error.  Each API function additionally
  reports how many HTTP requests it issued (`0` or `1`).
* `json.loads` is modelled by a fuel-based recursive-descent parser for
  JSON values; string escape sequences and `inf`/`nan` literals are not
  modelled (lines using them are outside every claim considered here).
-/

/-- Error kinds of the Python exceptions that occur on the embedded paths. -/
inductive PyErr where
  | valueError
  | typeError
  | connectionError
deriving DecidableEq, Repr

/-- Python runtime values reachable on the embedded code paths.
`float` is modelled as a rational number (see the header note). -/
inductive PyVal where
  | none
  | bool (b : Bool)
  | int (n : Int)
  | float (q : Rat)
  | str (s : String)
  | list (xs : List PyVal)
  | dict (kvs : List (String × PyVal))

/-- `d.get(k)` on a Python dict built by `json.loads`: the *last* binding of
a duplicated key wins (later keys overwrite earlier ones when the dict is
built), and a missing key yields `None`. -/
def dictGet (kvs : List (String × PyVal)) (k : String) : PyVal :=
  kvs.foldl (fun acc p => if p.1 = k then p.2 else acc) PyVal.none

/-- `v is None`. -/
def pyIsNone : PyVal → Bool
  | PyVal.none => true
  | _ => false

/-- Python `bool(v)`: total truthiness test. -/
def pyBoolOf : PyVal → Bool
  | PyVal.none => false
  | PyVal.bool b => b
  | PyVal.int n => n ≠ 0
  | PyVal.float q => q ≠ 0
  | PyVal.str s => s ≠ ""
  | PyVal.list xs => ¬ xs.isEmpty
  | PyVal.dict kvs => ¬ kvs.isEmpty

/-- Truncation toward zero, as Python `int(float)` does. -/
def pyTrunc (q : Rat) : Int :=
  if 0 ≤ q then ⌊q⌋ else -⌊-q⌋

/-- Round half to even at integer resolution (Python `round` tie-breaking). -/
def roundHalfEven (q : Rat) : Int :=
  let f : Int := ⌊q⌋
  let frac : Rat := q - f
  if frac < 1/2 then f
  else if 1/2 < frac then f + 1
  else if f % 2 = 0 then f else f + 1

/-- Python `round(x, ndigits)` on a (model) float: round half to even at the
`ndigits`-th decimal place. -/
def pyRound (q : Rat) (ndigits : Int) : Rat :=
  let scale : Rat := (10 : Rat) ^ ndigits
  (roundHalfEven (q * scale) : Rat) / scale

/-- One decimal digit, or failure. -/
def digitVal (c : Char) : Option Nat :=
  if c.isDigit then some (c.toNat - 48) else Option.none

/-- Interpret a list of decimal digit values as a natural number. -/
def natOfDigits (ds : List Nat) : Nat :=
  ds.foldl (fun a d => a * 10 + d) 0

/-- Split a leading run of decimal digits off a character list. -/
def takeDigits : List Char → List Nat × List Char
  | [] => ([], [])
  | c :: cs =>
    match digitVal c with
    | some d =>
      let (ds, rest) := takeDigits cs
      (d :: ds, rest)
    | Option.none => ([], c :: cs)

/-- Whitespace stripped by Python `str.strip()` (the ASCII part, which is all
that occurs on the embedded paths). -/
def pyWs (c : Char) : Bool :=
  c = ' ' || c = '\t' || c = '\n' || c = '\r' || c = '\x0b' || c = '\x0c'

/-- `str.strip()`. -/
def pyStrip (s : String) : String :=
  String.mk ((s.data.dropWhile pyWs).reverse.dropWhile pyWs).reverse

/-- Parse the body of a Python `int("...")` literal after stripping:
optional sign then at least one digit (digit-group underscores are not
modelled).  Failure means Python raises `ValueError`. -/
def intLit? (cs : List Char) : Option Int :=
  let (neg, cs1) :=
    match cs with
    | '-' :: r => (true, r)
    | '+' :: r => (false, r)
    | r => (false, r)
  match takeDigits cs1 with
  | ([], _) => Option.none
  | (ds, rest) =>
    if rest.isEmpty then
      some (if neg then -(natOfDigits ds : Int) else (natOfDigits ds : Int))
    else Option.none

/-- Python `int(str)` after `strip`: `intLit?` on the characters. -/
def pyIntOfString? (s : String) : Option Int :=
  intLit? (pyStrip s).data

/-- Parse the body of a Python `float("...")` literal after stripping:
optional sign, then digits with an optional decimal point (at least one
digit overall), then an optional exponent.  `inf`/`nan` and digit-group
underscores are not modelled.  Failure means Python raises `ValueError`. -/
def floatLit? (cs : List Char) : Option Rat :=
  let (neg, cs1) :=
    match cs with
    | '-' :: r => (true, r)
    | '+' :: r => (false, r)
    | r => (false, r)
  let (ip, cs2) := takeDigits cs1
  let (fp, cs3) :=
    match cs2 with
    | '.' :: r =>
      let (ds, rest) := takeDigits r
      (some ds, rest)
    | r => (Option.none, r)
  let fracDigits := fp.getD []
  if ip.isEmpty ∧ fracDigits.isEmpty then Option.none
  else
    let mant : Rat :=
      (natOfDigits ip : Rat) +
        (natOfDigits fracDigits : Rat) / (10 : Rat) ^ fracDigits.length
    let withExp : Option Rat :=
      match cs3 with
      | [] => some mant
      | 'e' :: r =>
        match intLit? r with
        | some e => some (mant * (10 : Rat) ^ e)
        | Option.none => Option.none
      | 'E' :: r =>
        match intLit? r with
        | some e => some (mant * (10 : Rat) ^ e)
        | Option.none => Option.none
      | _ => Option.none
    match withExp with
    | some q => some (if neg then -q else q)
    | Option.none => Option.none

/-- Python `float(str)` after `strip`. -/
def pyFloatOfString? (s : String) : Option Rat :=
  floatLit? (pyStrip s).data

/-- Python `float(v)`: `TypeError` on `None`/containers, `ValueError` on an
unparsable string, otherwise the numeric value. -/
def pyFloatE : PyVal → Except PyErr Rat
  | PyVal.none => Except.error PyErr.typeError
  | PyVal.bool b => Except.ok (if b then 1 else 0)
  | PyVal.int n => Except.ok (n : Rat)
  | PyVal.float q => Except.ok q
  | PyVal.str s =>
    match pyFloatOfString? s with
    | some q => Except.ok q
    | Option.none => Except.error PyErr.valueError
  | PyVal.list _ => Except.error PyErr.typeError
  | PyVal.dict _ => Except.error PyErr.typeError

/-- Python `int(v)`: `TypeError` on `None`/containers, `ValueError` on an
unparsable string, truncation toward zero on a float. -/
def pyIntE : PyVal → Except PyErr Int
  | PyVal.none => Except.error PyErr.typeError
  | PyVal.bool b => Except.ok (if b then 1 else 0)
  | PyVal.int n => Except.ok n
  | PyVal.float q => Except.ok (pyTrunc q)
  | PyVal.str s =>
    match pyIntOfString? s with
    | some n => Except.ok n
    | Option.none => Except.error PyErr.valueError
  | PyVal.list _ => Except.error PyErr.typeError
  | PyVal.dict _ => Except.error PyErr.typeError

/-- Decimal digits of the fractional part of a nonnegative rational below 1,
with fuel bounding the number of digits emitted.  Every float on the
embedded paths has a terminating decimal expansion, so the fuel (set by the
caller) is never exhausted there. -/
def fracDigitChars : Nat → Rat → List Char
  | 0, _ => []
  | Nat.succ n, q =>
    if q = 0 then []
    else
      let q10 := q * 10
      let d : Int := ⌊q10⌋
      Char.ofNat (48 + d.toNat) :: fracDigitChars n (q10 - (d : Rat))

/-- Python `str(float)` (model): sign, integer part, decimal point, and the
fractional digits (at least one, as Python always prints `1.0`-style). -/
def pyFloatStr (q : Rat) : String :=
  let sign := if q < 0 then "-" else ""
  let a : Rat := |q|
  let ipart : Int := ⌊a⌋
  let frac : Rat := a - (ipart : Rat)
  let ds := fracDigitChars 30 frac
  sign ++ toString ipart ++ "." ++ (if ds.isEmpty then "0" else String.mk ds)

mutual

/-- Python `str(v)` (model).  Container rendering follows Python `repr`
shape (`[a, b]`, `{'k': v}`) with strings single-quoted; escape handling in
`repr` of strings is not modelled (no claim depends on it). -/
def pyStrOf : PyVal → String
  | PyVal.none => "None"
  | PyVal.bool b => if b then "True" else "False"
  | PyVal.int n => toString n
  | PyVal.float q => pyFloatStr q
  | PyVal.str s => s
  | PyVal.list xs => "[" ++ pyStrList xs ++ "]"
  | PyVal.dict kvs => "\x7b" ++ pyStrKVs kvs ++ "\x7d"

/-- `repr` of a value in a container position: strings get quotes. -/
def pyReprOf : PyVal → String
  | PyVal.str s => "'" ++ s ++ "'"
  | v => pyStrOf v

/-- Comma-joined `repr`s of list elements. -/
def pyStrList : List PyVal → String
  | [] => ""
  | [x] => pyReprOf x
  | x :: xs => pyReprOf x ++ ", " ++ pyStrList xs

/-- Comma-joined `repr`s of dict entries. -/
def pyStrKVs : List (String × PyVal) → String
  | [] => ""
  | [(k, v)] => "'" ++ k ++ "': " ++ pyReprOf v
  | (k, v) :: kvs => "'" ++ k ++ "': " ++ pyReprOf v ++ ", " ++ pyStrKVs kvs

end

mutual

/-- Python `==` on the values reachable on the embedded paths.  Numbers
(`bool`, `int`, `float`) compare by numeric value (`True == 1`,
`1 == 1.0`); `None` equals only `None`; strings compare as strings; lists
compare elementwise.  Dict equality is modelled structurally (in-order),
which agrees with Python whenever key order coincides; no embedded code
path compares dicts. -/
def pyEqV : PyVal → PyVal → Bool
  | PyVal.none, PyVal.none => true
  | PyVal.bool a, PyVal.bool b => a == b
  | PyVal.bool a, PyVal.int n => (if a then (1 : Int) else 0) == n
  | PyVal.bool a, PyVal.float q => (if a then (1 : Rat) else 0) == q
  | PyVal.int n, PyVal.bool b => n == (if b then (1 : Int) else 0)
  | PyVal.int a, PyVal.int b => a == b
  | PyVal.int a, PyVal.float q => (a : Rat) == q
  | PyVal.float q, PyVal.bool b => q == (if b then (1 : Rat) else 0)
  | PyVal.float q, PyVal.int a => q == (a : Rat)
  | PyVal.float a, PyVal.float b => a == b
  | PyVal.str a, PyVal.str b => a == b
  | PyVal.list a, PyVal.list b => pyEqList a b
  | PyVal.dict a, PyVal.dict b => pyEqKVs a b
  | _, _ => false

/-- Elementwise Python `==` on lists. -/
def pyEqList : List PyVal → List PyVal → Bool
  | [], [] => true
  | a :: as', b :: bs => pyEqV a b && pyEqList as' bs
  | _, _ => false

/-- In-order Python `==` on dict entry lists (see `pyEqV`). -/
def pyEqKVs : List (String × PyVal) → List (String × PyVal) → Bool
  | [], [] => true
  | (k1, v1) :: as', (k2, v2) :: bs => k1 == k2 && pyEqV v1 v2 && pyEqKVs as' bs
  | _, _ => false

end

/-- `v != n` for a configured Python `int` on the left of the comparison in
`run_loop` is the negation of this numeric equality. -/
def pyEqInt (v : PyVal) (n : Int) : Bool := pyEqV v (PyVal.int n)

/-- Python `==` against a configured `str`. -/
def pyEqStr (v : PyVal) (s : String) : Bool := pyEqV v (PyVal.str s)

/-- The timestamp produced by `datetime.strptime(..., "%Y-%m-%d %H:%M:%S")`. -/
structure DateTime where
  year : Nat
  month : Nat
  day : Nat
  hour : Nat
  minute : Nat
  second : Nat
deriving DecidableEq, Repr

/-- Gregorian leap year, as `datetime` uses for day-of-month validation. -/
def isLeap (y : Nat) : Bool :=
  (y % 4 = 0 && y % 100 ≠ 0) || y % 400 = 0

/-- Days in a month, for `datetime`'s day validation. -/
def daysInMonth (y m : Nat) : Nat :=
  if m = 2 then (if isLeap y then 29 else 28)
  else if m = 4 ∨ m = 6 ∨ m = 9 ∨ m = 11 then 30
  else 31

/-- Two-digit decimal field of a `strptime` pattern. -/
def twoDigits (c1 c2 : Char) : Option Nat := do
  let d1 ← digitVal c1
  let d2 ← digitVal c2
  pure (d1 * 10 + d2)

/-- `datetime.strptime(s, "%Y-%m-%d %H:%M:%S")` on the zero-padded form the
decoder emits (`YYYY-MM-DD HH:MM:SS`), including the range validation the
`datetime` constructor performs; failure is Python's `ValueError`. -/
def strptimeYmdHms? (s : String) : Option DateTime :=
  match s.data with
  | [y1, y2, y3, y4, '-', m1, m2, '-', d1, d2, ' ',
     h1, h2, ':', n1, n2, ':', s1, s2] => do
    let yh ← twoDigits y1 y2
    let yl ← twoDigits y3 y4
    let y := yh * 100 + yl
    let mo ← twoDigits m1 m2
    let dy ← twoDigits d1 d2
    let hr ← twoDigits h1 h2
    let mi ← twoDigits n1 n2
    let sc ← twoDigits s1 s2
    if 1 ≤ y ∧ 1 ≤ mo ∧ mo ≤ 12 ∧ 1 ≤ dy ∧ dy ≤ daysInMonth y mo ∧
        hr ≤ 23 ∧ mi ≤ 59 ∧ sc ≤ 59 then
      pure ⟨y, mo, dy, hr, mi, sc⟩
    else Option.none
  | _ => Option.none

/-- `datetime.strptime(v, fmt)`: `TypeError` unless `v` is a string,
`ValueError` if the string does not match the format. -/
def strptimeE : PyVal → Except PyErr DateTime
  | PyVal.str s =>
    match strptimeYmdHms? s with
    | some dt => Except.ok dt
    | Option.none => Except.error PyErr.valueError
  | _ => Except.error PyErr.typeError

/-- JSON whitespace skipped between tokens. -/
def jsonWs (c : Char) : Bool :=
  c = ' ' || c = '\t' || c = '\n' || c = '\r'

/-- The string body of a JSON string literal, after the opening quote.
Escape sequences are not modelled: a backslash makes the parse fail
(see the header note). -/
def jsonStringBody : List Char → List Char → Option (String × List Char)
  | acc, '"' :: rest => some (String.mk acc.reverse, rest)
  | _, '\\' :: _ => Option.none
  | acc, c :: rest => jsonStringBody (c :: acc) rest
  | _, [] => Option.none

/-- Characters an exponent field of a JSON number may use. -/
def expDigit (c : Char) : Bool :=
  c.isDigit || c == '+' || c == '-'

/-- A JSON number token, as `json.loads` scans it: optional minus, an
integer part with no leading zero, then an optional fraction and exponent.
A token with neither fraction nor exponent decodes to a Python `int`,
otherwise to a `float`.  Characters not consumed (for example a bare
trailing `.`) are left for the surrounding parser, which then fails on
them exactly as `json.loads` reports an error at that position. -/
def jsonNumber (cs : List Char) : Option (PyVal × List Char) :=
  let (neg, cs1) :=
    match cs with
    | '-' :: r => (true, r)
    | r => (false, r)
  match takeDigits cs1 with
  | ([], _) => Option.none
  | (ip, rest1) =>
    if 1 < ip.length ∧ ip.headD 0 = 0 then Option.none
    else
      let (frac, rest2) :=
        match rest1 with
        | '.' :: r =>
          (match takeDigits r with
           | ([], _) => (Option.none, rest1)
           | (ds, rr) => (some ds, rr))
        | _ => (Option.none, rest1)
      let (expo, rest3) :=
        match rest2 with
        | e :: r =>
          if e == 'e' || e == 'E' then
            match intLit? (r.takeWhile expDigit) with
            | some ex => (some ex, r.dropWhile expDigit)
            | Option.none => (Option.none, rest2)
          else (Option.none, rest2)
        | [] => (Option.none, rest2)
      let iv : Int := (natOfDigits ip : Int)
      match frac, expo with
      | Option.none, Option.none =>
        some (PyVal.int (if neg then -iv else iv), rest1)
      | _, _ =>
        let fds := frac.getD []
        let mant : Rat :=
          (iv : Rat) + (natOfDigits fds : Rat) / (10 : Rat) ^ fds.length
        let q : Rat := mant * (10 : Rat) ^ (expo.getD 0)
        some (PyVal.float (if neg then -q else q), rest3)

mutual

/-- One JSON value, with fuel bounding the recursion depth (`parseJson?`
supplies more fuel than any input could need). -/
def jsonValue : Nat → List Char → Option (PyVal × List Char)
  | 0, _ => Option.none
  | Nat.succ fuel, cs =>
    match cs.dropWhile jsonWs with
    | 'n' :: 'u' :: 'l' :: 'l' :: rest => some (PyVal.none, rest)
    | 't' :: 'r' :: 'u' :: 'e' :: rest => some (PyVal.bool true, rest)
    | 'f' :: 'a' :: 'l' :: 's' :: 'e' :: rest => some (PyVal.bool false, rest)
    | '"' :: rest =>
      match jsonStringBody [] rest with
      | some (s, rest1) => some (PyVal.str s, rest1)
      | Option.none => Option.none
    | '\x7b' :: rest =>
      (match rest.dropWhile jsonWs with
       | '\x7d' :: rest1 => some (PyVal.dict [], rest1)
       | _ =>
         match jsonMembers fuel rest with
         | some (kvs, rest1) => some (PyVal.dict kvs, rest1)
         | Option.none => Option.none)
    | '[' :: rest =>
      (match rest.dropWhile jsonWs with
       | ']' :: rest1 => some (PyVal.list [], rest1)
       | _ =>
         match jsonItems fuel rest with
         | some (xs, rest1) => some (PyVal.list xs, rest1)
         | Option.none => Option.none)
    | cs1 => jsonNumber cs1

/-- The members of a JSON object after its `\x7b`, at least one. -/
def jsonMembers : Nat → List Char → Option (List (String × PyVal) × List Char)
  | 0, _ => Option.none
  | Nat.succ fuel, cs =>
    match cs.dropWhile jsonWs with
    | '"' :: rest =>
      (match jsonStringBody [] rest with
       | some (k, rest1) =>
         (match rest1.dropWhile jsonWs with
          | ':' :: rest2 =>
            (match jsonValue fuel rest2 with
             | some (v, rest3) =>
               (match rest3.dropWhile jsonWs with
                | ',' :: rest4 =>
                  (match jsonMembers fuel rest4 with
                   | some (kvs, rest5) => some ((k, v) :: kvs, rest5)
                   | Option.none => Option.none)
                | '\x7d' :: rest4 => some ([(k, v)], rest4)
                | _ => Option.none)
             | Option.none => Option.none)
          | _ => Option.none)
       | Option.none => Option.none)
    | _ => Option.none

/-- The items of a JSON array after its `[`, at least one. -/
def jsonItems : Nat → List Char → Option (List PyVal × List Char)
  | 0, _ => Option.none
  | Nat.succ fuel, cs =>
    match jsonValue fuel cs with
    | some (v, rest) =>
      (match rest.dropWhile jsonWs with
       | ',' :: rest1 =>
         (match jsonItems fuel rest1 with
          | some (xs, rest2) => some (v :: xs, rest2)
          | Option.none => Option.none)
       | ']' :: rest1 => some ([v], rest1)
       | _ => Option.none)
    | Option.none => Option.none

end

/-- `json.loads(line)` restricted to the use in `run_loop`: the result must
be a JSON object (the loop only reaches the parse for lines starting with
`\x7b`), and trailing non-whitespace makes the parse fail. -/
def parseJson? (s : String) : Option (List (String × PyVal)) :=
  match jsonValue (s.length + 1) s.data with
  | some (PyVal.dict kvs, rest) =>
    if (rest.dropWhile jsonWs).isEmpty then some kvs else Option.none
  | _ => Option.none

/-- The typed reading built by `WeatherData.__post_init__`
(`weatherstation.py`).  Field names follow the dataclass. -/
structure WeatherData where
  temperature : Rat
  humidity : Int
  wind_speed_avg : Rat
  wind_speed_max : Rat
  wind_direction : Int
  rain : Rat
  battery_ok : Bool
  date_time : DateTime
deriving DecidableEq, Repr

/-- `WeatherData(raw_data=raw)`: the conversions of `__post_init__`, in
source order.  Any conversion failure raises out of the constructor, so no
partially-filled object is ever produced. -/
def WeatherData.ofRaw (raw : List (String × PyVal)) : Except PyErr WeatherData :=
  match pyFloatE (dictGet raw "temperature_C") with
  | Except.error e => Except.error e
  | Except.ok temperature =>
  match pyIntE (dictGet raw "humidity") with
  | Except.error e => Except.error e
  | Except.ok humidity =>
  match pyFloatE (dictGet raw "wind_avg_m_s") with
  | Except.error e => Except.error e
  | Except.ok wind_speed_avg =>
  match pyFloatE (dictGet raw "wind_max_m_s") with
  | Except.error e => Except.error e
  | Except.ok wind_speed_max =>
  match pyIntE (dictGet raw "wind_dir_deg") with
  | Except.error e => Except.error e
  | Except.ok wind_direction =>
  match pyFloatE (dictGet raw "rain_mm") with
  | Except.error e => Except.error e
  | Except.ok rain =>
  let battery_ok := pyBoolOf (dictGet raw "battery_ok")
  match strptimeE (dictGet raw "time") with
  | Except.error e => Except.error e
  | Except.ok date_time =>
    Except.ok { temperature, humidity, wind_speed_avg, wind_speed_max,
                wind_direction, rain, battery_ok, date_time }

/-- Python `line.startswith("\x7b")`: the first character is `\x7b`.
(Modelled on the characters because the prefix is a single character.) -/
def startsWithBrace (s : String) : Bool :=
  match s.data with
  | c :: _ => c == '\x7b'
  | [] => false

/-- What the body of `WeatherStation.run_loop` does with one decoded,
stripped line. -/
inductive LineResult where
  | skip
  | emit (w : WeatherData)
  | exn (e : PyErr)
deriving Repr

/-- One iteration of `run_loop` on a stripped line: a line not starting
with `\x7b` is skipped; a `json.JSONDecodeError` is caught and the line
skipped; a wrong `id` or `model` (Python `!=` against the configured
values) skips the line; otherwise `WeatherData` is constructed — and an
exception there is *not* caught by `run_loop`. -/
def processLine (station_id : Int) (station_model : String)
    (line : String) : LineResult :=
  if ¬ startsWithBrace line then LineResult.skip
  else
    match parseJson? line with
    | Option.none => LineResult.skip
    | some raw =>
      let st_id := dictGet raw "id"
      let model := dictGet raw "model"
      if ¬ pyEqInt st_id station_id ∨ ¬ pyEqStr model station_model then
        LineResult.skip
      else
        match WeatherData.ofRaw raw with
        | Except.ok w => LineResult.emit w
        | Except.error e => LineResult.exn e

/-- The whole `run_loop` generator over the (finite prefix of) lines the
subprocess emits before exiting: the yielded readings in order, paired with
the exception that escaped the generator, if one did.  An escaping
exception ends the loop at that line. -/
def runLoop (station_id : Int) (station_model : String) :
    List String → List WeatherData × Option PyErr
  | [] => ([], Option.none)
  | line :: rest =>
    match processLine station_id station_model line with
    | LineResult.skip => runLoop station_id station_model rest
    | LineResult.emit w =>
      let (ws, e) := runLoop station_id station_model rest
      (w :: ws, e)
    | LineResult.exn e => ([], some e)

/-- `HassAPI` dataclass state: base url, bearer token, timeout.  The derived
headers carry no information beyond the token and are not repeated here. -/
structure HassAPI where
  hass_url : String
  token : String
  timeout : Int
deriving DecidableEq, Repr

/-- `urllib.parse.urljoin(base, rel)` for the shapes used here: a relative
path is resolved against the base with its last path segment dropped (a
base ending in `/` keeps all its segments). -/
def urljoinModel (base rel : String) : String :=
  let parts := base.splitOn "/"
  String.intercalate "/" (parts.dropLast) ++ "/" ++ rel

/-- `HassAPI.url`: the api root. -/
def HassAPI.url (api : HassAPI) : String :=
  urljoinModel api.hass_url "api/"

/-- `HassAPI.online` given the transport outcome of the probe request:
`response.ok` is status < 400; a transport failure raises. -/
def HassAPI.online (api : HassAPI) (resp : Option Nat) : Except PyErr Bool :=
  match api, resp with
  | _, Option.none => Except.error PyErr.connectionError
  | _, some status => Except.ok (decide (status < 400))

/-- `HassAPI.__post_init__`: constructing the client probes the api root and
raises `ConnectionError` when the hub is not reachable. -/
def HassAPI.construct (hass_url token : String) (timeout : Int)
    (resp : Option Nat) : Except PyErr HassAPI :=
  let api : HassAPI := { hass_url, token, timeout }
  match api.online resp with
  | Except.error e => Except.error e
  | Except.ok true => Except.ok api
  | Except.ok false => Except.error PyErr.connectionError

/-- Python `s.split(sep)` for a one-character separator, on the character
list: splitting on every occurrence, with empty parts kept. -/
def splitOnChar (sep : Char) : List Char → List (List Char)
  | [] => [[]]
  | c :: cs =>
    let r := splitOnChar sep cs
    if c = sep then [] :: r
    else
      match r with
      | h :: t => (c :: h) :: t
      | [] => [[c]]

/-- `HassAPI._format_entity_url`: raises `ValueError` unless splitting the
entity id on `"."` gives exactly two parts. -/
def formatEntityUrl (api : HassAPI) (entity_id : String) :
    Except PyErr String :=
  if ¬ (splitOnChar '.' entity_id.data).length = 2 then Except.error PyErr.valueError
  else Except.ok (urljoinModel api.url ("states/" ++ entity_id))

/-- `HassAPI.get_entity_state` given the transport outcome `resp` of the GET
(`none` = transport raised).  The pair's second component counts HTTP
requests issued.  404 raises `ValueError`; any other non-ok status raises
`ConnectionError`; otherwise the response is returned. -/
def HassAPI.get_entity_state (api : HassAPI) (entity_id : String)
    (resp : Option Nat) : Except PyErr Nat × Nat :=
  match formatEntityUrl api entity_id with
  | Except.error e => (Except.error e, 0)
  | Except.ok _ =>
    match resp with
    | Option.none => (Except.error PyErr.connectionError, 1)
    | some status =>
      if status = 404 then (Except.error PyErr.valueError, 1)
      else if ¬ status < 400 then (Except.error PyErr.connectionError, 1)
      else (Except.ok status, 1)

/-- `HassAPI.post_entity_state` given the transport outcome `resp` of the
POST.  The state dict is a Python dict (`dictGet` models `.get`).  After
the url check, a state value of `None` (absent key or explicit `None`)
skips the update and returns `None`; otherwise the POST is issued and the
response returned whether or not it is ok (a non-ok response is only
logged).  The second component counts HTTP requests issued. -/
def HassAPI.post_entity_state (api : HassAPI) (entity_id : String)
    (state : List (String × PyVal)) (resp : Option Nat) :
    Except PyErr (Option Nat) × Nat :=
  match formatEntityUrl api entity_id with
  | Except.error e => (Except.error e, 0)
  | Except.ok _ =>
    if pyIsNone (dictGet state "state") then (Except.ok Option.none, 0)
    else
      match resp with
      | Option.none => (Except.error PyErr.connectionError, 1)
      | some status => (Except.ok (some status), 1)

/-- The `dtype` tag of a `HassEntity`: in the source this is a Python type
object (`float`, `int`, `str` or `bool`) used both as a coercion callable
and in the `dtype == float` test. -/
inductive Dtype where
  | float
  | int
  | str
  | bool
deriving DecidableEq, Repr

/-- `HassEntity` dataclass state.  `state` is the `_state` backing field of
the `state` property; `__post_init__` sets it to `None`. -/
structure HassEntity where
  entity_id : String
  api : HassAPI
  dtype : Dtype
  unit_of_measurement : String
  precision : Int
  icon : String
  idempotent : Bool
  state : PyVal

/-- The dataclass constructor composed with `__post_init__`: the cached
state starts as the `None` sentinel. -/
def HassEntity.make (entity_id : String) (api : HassAPI) (dtype : Dtype)
    (unit_of_measurement : String) (precision : Int) (icon : String)
    (idempotent : Bool) : HassEntity :=
  { entity_id, api, dtype, unit_of_measurement, precision, icon, idempotent,
    state := PyVal.none }

/-- The coercion phase of `HassEntity.update`: `state = self.dtype(state)`,
then `round(state, self.precision)` when the dtype is `float`.  The result
is a Python value of the entity's dtype. -/
def pyCoerce (d : Dtype) (precision : Int) (v : PyVal) :
    Except PyErr PyVal :=
  match d with
  | Dtype.float =>
    match pyFloatE v with
    | Except.ok q => Except.ok (PyVal.float (pyRound q precision))
    | Except.error e => Except.error e
  | Dtype.int =>
    match pyIntE v with
    | Except.ok n => Except.ok (PyVal.int n)
    | Except.error e => Except.error e
  | Dtype.str => Except.ok (PyVal.str (pyStrOf v))
  | Dtype.bool => Except.ok (PyVal.bool (pyBoolOf v))

/-- `HassEntity.update(state)` given the transport outcome `resp` for the
POST it may issue.  The coercion `try` catches only `ValueError` — any other
exception there (for example the `TypeError` from `float(None)`) escapes.
If the entity is idempotent and the coerced value `==` the cached state,
nothing further happens.  Otherwise the cached state is set *before* the
POST, the state dict is compiled, and every exception of the POST phase is
caught and logged.  The result carries the updated entity and the number of
HTTP requests issued. -/
def HassEntity.update (e : HassEntity) (state : PyVal) (resp : Option Nat) :
    Except PyErr (HassEntity × Nat) :=
  match pyCoerce e.dtype e.precision state with
  | Except.error PyErr.valueError => Except.ok (e, 0)
  | Except.error err => Except.error err
  | Except.ok c =>
    if e.idempotent && pyEqV e.state c then Except.ok (e, 0)
    else
      let e' := { e with state := c }
      let state_dict : List (String × PyVal) :=
        [("state", c),
         ("attributes",
          PyVal.dict [("unit_of_measurement", PyVal.str e.unit_of_measurement),
                      ("icon", PyVal.str e.icon)])]
      match HassAPI.post_entity_state e.api e.entity_id state_dict resp with
      | (Except.ok _, n) => Except.ok (e', n)
      | (Except.error _, n) => Except.ok (e', n)

/-- `update` as the caller observes the entity afterwards: on an escaping
exception the assignment to `self.state` has not yet run, so the entity is
unchanged and no request was issued. -/
def updateStep (e : HassEntity) (state : PyVal) (resp : Option Nat) :
    HassEntity × Nat :=
  match e.update state resp with
  | Except.ok p => p
  | Except.error _ => (e, 0)

/-- A sequence of `update` calls with their transport outcomes.  An
escaping exception aborts the caller's loop, so later calls do not happen
and the entity keeps its state at that point. -/
def runUpdates (e : HassEntity) : List (PyVal × Option Nat) → HassEntity
  | [] => e
  | (v, r) :: rest =>
    match e.update v r with
    | Except.ok (e', _) => runUpdates e' rest
    | Except.error _ => e

/-- The value the spec says the cache must hold: starting from `s0`, each
successful coercion overwrites the cache, a `ValueError` leaves it, and any
other coercion exception ends the run (it escapes `update`). -/
def lastCoerced (d : Dtype) (p : Int) (s0 : PyVal) : List PyVal → PyVal
  | [] => s0
  | v :: rest =>
    match pyCoerce d p v with
    | Except.ok c => lastCoerced d p c rest
    | Except.error PyErr.valueError => lastCoerced d p s0 rest
    | Except.error _ => s0

/-- `v` is a Python value of the runtime type named by `d`. -/
def isDtypeVal : Dtype → PyVal → Prop
  | Dtype.float, PyVal.float _ => True
  | Dtype.int, PyVal.int _ => True
  | Dtype.str, PyVal.str _ => True
  | Dtype.bool, PyVal.bool _ => True
  | _, _ => False

/-- A scalar Python value: not `None` and not a container. -/
def isScalar : PyVal → Prop
  | PyVal.bool _ => True
  | PyVal.int _ => True
  | PyVal.float _ => True
  | PyVal.str _ => True
  | _ => False

/-- A sample client for concrete instantiations (never probed here). -/
def apiSample : HassAPI :=
  { hass_url := "http://localhost:8123/", token := "token", timeout := 5 }

/-- An idempotent float entity whose cached state already holds the rounded
value `14.6` — the state reached after one successful `update(14.6)`. -/
def entPreSet : HassEntity :=
  { entity_id := "sensor.kitchen_temp", api := apiSample,
    dtype := Dtype.float, unit_of_measurement := "\u00b0C", precision := 1,
    icon := "mdi:thermometer", idempotent := true,
    state := PyVal.float (pyRound (73 / 5) 1) }

lemma pyCoerce_isDtypeVal {d : Dtype} {p : Int} {v c : PyVal}
    (h : pyCoerce d p v = Except.ok c) : isDtypeVal d c := by
  cases d <;> simp only [pyCoerce] at h
  · cases hf : pyFloatE v <;> rw [hf] at h
    · simp at h
    · injection h with h
      subst h
      trivial
  · cases hf : pyIntE v <;> rw [hf] at h
    · simp at h
    · injection h with h
      subst h
      trivial
  · injection h with h
    subst h
    trivial
  · injection h with h
    subst h
    trivial

lemma isDtypeVal_ne_none {d : Dtype} {c : PyVal} (h : isDtypeVal d c) :
    c ≠ PyVal.none := by
  cases d <;> cases c <;> simp_all [isDtypeVal]

lemma pyEqV_none_eq_false {c : PyVal} (h : c ≠ PyVal.none) :
    pyEqV PyVal.none c = false := by
  cases c <;> simp_all [pyEqV]

lemma pyIsNone_eq_false {c : PyVal} (h : c ≠ PyVal.none) :
    pyIsNone c = false := by
  cases c <;> simp_all [pyIsNone]

lemma pyEqV_refl_of_isDtypeVal {d : Dtype} {c : PyVal}
    (h : isDtypeVal d c) : pyEqV c c = true := by
  cases d <;> cases c <;> simp_all [isDtypeVal, pyEqV]

lemma pyEqV_eq_of_isDtypeVal {d : Dtype} {a b : PyVal}
    (ha : isDtypeVal d a) (hb : isDtypeVal d b)
    (h : pyEqV a b = true) : a = b := by
  cases d <;> cases a <;> cases b <;> simp_all [isDtypeVal, pyEqV]

lemma isScalar_pyCoerce_ne_typeError {d : Dtype} {p : Int} {v : PyVal}
    (h : isScalar v) : pyCoerce d p v ≠ Except.error PyErr.typeError := by
  cases d <;> cases v <;>
    simp_all [isScalar, pyCoerce, pyFloatE, pyIntE] <;>
    first
    | (rename_i s
       cases hf : pyFloatOfString? s <;> simp [hf])
    | (rename_i s
       cases hf : pyIntOfString? s <;> simp [hf])

lemma update_of_valueError {e : HassEntity} {v : PyVal} {r : Option Nat}
    (h : pyCoerce e.dtype e.precision v = Except.error PyErr.valueError) :
    e.update v r = Except.ok (e, 0) := by
  simp only [HassEntity.update, h]

lemma update_of_otherError {e : HassEntity} {v : PyVal} {r : Option Nat}
    {err : PyErr} (h : pyCoerce e.dtype e.precision v = Except.error err)
    (hne : err ≠ PyErr.valueError) :
    e.update v r = Except.error err := by
  simp only [HassEntity.update, h]

lemma update_of_ok_suppressed {e : HassEntity} {v c : PyVal} {r : Option Nat}
    (h : pyCoerce e.dtype e.precision v = Except.ok c)
    (hid : (e.idempotent && pyEqV e.state c) = true) :
    e.update v r = Except.ok (e, 0) := by
  simp only [HassEntity.update, h, hid, if_true]

lemma update_of_ok_post {e : HassEntity} {v c : PyVal} {r : Option Nat}
    (h : pyCoerce e.dtype e.precision v = Except.ok c)
    (hid : (e.idempotent && pyEqV e.state c) = false) :
    ∃ n, e.update v r =
      Except.ok ({ e with state := c }, n) := by
  simp only [HassEntity.update, h, hid, if_false, Bool.false_eq_true]
  cases hp : HassAPI.post_entity_state e.api e.entity_id
    [("state", c),
     ("attributes",
      PyVal.dict [("unit_of_measurement", PyVal.str e.unit_of_measurement),
                  ("icon", PyVal.str e.icon)])] r with
  | mk res n =>
    cases res with
    | ok a => exact ⟨n, rfl⟩
    | error a => exact ⟨n, rfl⟩

/-- The cache after a sequence of `update` calls is the fold of successful
coercions over the raw values alone: the transport outcomes never enter. -/
lemma runUpdates_state_eq (d : Dtype) (p : Int) :
    ∀ (inputs : List (PyVal × Option Nat)) (e : HassEntity),
      e.dtype = d → e.precision = p →
      (e.state = PyVal.none ∨ isDtypeVal d e.state) →
      (runUpdates e inputs).state =
        lastCoerced d p e.state (inputs.map Prod.fst)
  | [], e, _, _, _ => by simp [runUpdates, lastCoerced]
  | (v, r) :: rest, e, hd, hp, hs => by
    subst hd
    subst hp
    cases hc : pyCoerce e.dtype e.precision v with
    | error err =>
      cases err with
      | valueError =>
        rw [show runUpdates e ((v, r) :: rest) =
              runUpdates e rest by
            simp [runUpdates, @update_of_valueError _ _ r hc]]
        rw [show ((v, r) :: rest).map Prod.fst = v :: rest.map Prod.fst from rfl]
        rw [show lastCoerced e.dtype e.precision e.state (v :: rest.map Prod.fst) =
              lastCoerced e.dtype e.precision e.state (rest.map Prod.fst) by
            simp [lastCoerced, hc]]
        exact runUpdates_state_eq _ _ rest e rfl rfl hs
      | typeError =>
        rw [show runUpdates e ((v, r) :: rest) = e by
            simp [runUpdates, @update_of_otherError _ _ r _ hc (by simp)]]
        simp [lastCoerced, hc]
      | connectionError =>
        rw [show runUpdates e ((v, r) :: rest) = e by
            simp [runUpdates, @update_of_otherError _ _ r _ hc (by simp)]]
        simp [lastCoerced, hc]
    | ok c =>
      have hcd := pyCoerce_isDtypeVal hc
      rw [show ((v, r) :: rest).map Prod.fst = v :: rest.map Prod.fst from rfl]
      rw [show lastCoerced e.dtype e.precision e.state (v :: rest.map Prod.fst) =
            lastCoerced e.dtype e.precision c (rest.map Prod.fst) by
          simp [lastCoerced, hc]]
      cases hid : e.idempotent && pyEqV e.state c with
      | true =>
        have hst : e.state = c := by
          rcases hs with hnone | hdv
          · exfalso
            rw [hnone, pyEqV_none_eq_false (isDtypeVal_ne_none hcd),
              Bool.and_false] at hid
            exact Bool.false_ne_true hid
          · exact pyEqV_eq_of_isDtypeVal hdv hcd
              (Bool.and_elim_right hid)
        rw [show runUpdates e ((v, r) :: rest) = runUpdates e rest by
            simp [runUpdates, @update_of_ok_suppressed _ _ _ r hc hid]]
        rw [← hst]
        exact runUpdates_state_eq _ _ rest e rfl rfl hs
      | false =>
        obtain ⟨n, hn⟩ := @update_of_ok_post _ _ _ r hc hid
        rw [show runUpdates e ((v, r) :: rest) =
              runUpdates { e with state := c } rest by
            simp [runUpdates, hn]]
        exact runUpdates_state_eq _ _ rest { e with state := c } rfl rfl
          (Or.inr hcd)

/-- C1.  A raw JSON packet mapping yields a `WeatherData` reading exactly
when every field conversion of `__post_init__` succeeds, and then the
reading's fields are exactly `float(temperature_C)`, `int(humidity)`,
`float(wind_avg_m_s)`, `float(wind_max_m_s)`, `int(wind_dir_deg)`,
`float(rain_mm)`, `bool(battery_ok)` and the parsed `time` timestamp; any
conversion failure means no reading is produced at all. -/
theorem c1_reading_fields (raw : List (String × PyVal)) (w : WeatherData) :
    WeatherData.ofRaw raw = Except.ok w ↔
      (pyFloatE (dictGet raw "temperature_C") = Except.ok w.temperature ∧
       pyIntE (dictGet raw "humidity") = Except.ok w.humidity ∧
       pyFloatE (dictGet raw "wind_avg_m_s") = Except.ok w.wind_speed_avg ∧
       pyFloatE (dictGet raw "wind_max_m_s") = Except.ok w.wind_speed_max ∧
       pyIntE (dictGet raw "wind_dir_deg") = Except.ok w.wind_direction ∧
       pyFloatE (dictGet raw "rain_mm") = Except.ok w.rain ∧
       pyBoolOf (dictGet raw "battery_ok") = w.battery_ok ∧
       strptimeE (dictGet raw "time") = Except.ok w.date_time) := by
  constructor
  · intro h
    simp only [WeatherData.ofRaw] at h
    repeat (any_goals (split at h))
    all_goals (try simp_all)
    subst h
    simp
  · rintro ⟨h1, h2, h3, h4, h5, h6, h7, h8⟩
    simp only [WeatherData.ofRaw, h1, h2, h3, h4, h5, h6, h8]
    rw [h7]

/-- C2 counterexample.  A line that parses as a JSON object matching the
configured id and model but lacks the sensor fields makes the
`WeatherData` construction raise (`float(None)` is a `TypeError`), and
`run_loop` does not catch it: the exception escapes the reader and the
loop terminates, contradicting the claim that no exception ever escapes. -/
theorem c2_counterexample :
    runLoop 176 "Bresser-5in1"
        ["\x7b\"id\":176,\"model\":\"Bresser-5in1\"\x7d"] =
      ([], some PyErr.typeError) := by
  rfl

/-- C2 (amended).  For every line that is non-JSON (does not start with
`\x7b`) or fails to parse as JSON, no reading is yielded, no exception
escapes the reader, and the loop continues; a whole stream of such lines
is consumed to its end with no reading and no exception. -/
theorem c2_amended (sid : Int) (sm : String) (lines : List String)
    (h : ∀ l ∈ lines, ¬ startsWithBrace l ∨ parseJson? l = Option.none) :
    runLoop sid sm lines = ([], Option.none) := by
  induction lines with
  | nil => rfl
  | cons l ls ih =>
    have hl := h l (by simp)
    have hskip : processLine sid sm l = LineResult.skip := by
      rcases hl with hs | hp
      · simp [processLine, hs]
      · by_cases hs : startsWithBrace l
        · simp [processLine, hs, hp]
        · simp [processLine, hs]
    rw [runLoop, hskip]
    exact ih (fun l' hl' => h l' (by simp [hl']))

theorem c2_witness :
    (∀ l ∈ ["garbage", "\x7bnot json"],
        ¬ startsWithBrace l ∨ parseJson? l = Option.none) ∧
      runLoop 176 "Bresser-5in1" ["garbage", "\x7bnot json"] =
        ([], Option.none) := by
  have h : ∀ l ∈ ["garbage", "\x7bnot json"],
      ¬ startsWithBrace l ∨ parseJson? l = Option.none := by
    intro l hl
    simp only [List.mem_cons, List.not_mem_nil, or_false] at hl
    rcases hl with rfl | rfl
    · left
      decide
    · right
      rfl
  exact ⟨h, c2_amended 176 "Bresser-5in1" _ h⟩

/-- C9.  A line that parses as a JSON object whose `id` or `model` does not
equal (Python `==`) the configured station id or model is skipped: no
reading is yielded for it and the stream continues with the remaining
lines. -/
theorem c9_station_filter (sid : Int) (sm : String) (line : String)
    (obj : List (String × PyVal))
    (hparse : parseJson? line = some obj)
    (hmm : pyEqInt (dictGet obj "id") sid = false ∨
        pyEqStr (dictGet obj "model") sm = false) :
    processLine sid sm line = LineResult.skip ∧
      ∀ rest, runLoop sid sm (line :: rest) = runLoop sid sm rest := by
  have hskip : processLine sid sm line = LineResult.skip := by
    by_cases hs : startsWithBrace line
    · rcases hmm with h | h
      · simp [processLine, hs, hparse, h]
      · simp [processLine, hs, hparse, h]
    · simp [processLine, hs]
  refine ⟨hskip, fun rest => ?_⟩
  rw [runLoop, hskip]

theorem c9_witness :
    parseJson? "\x7b\"id\":99,\"model\":\"Bresser-5in1\"\x7d" =
        some [("id", PyVal.int 99), ("model", PyVal.str "Bresser-5in1")] ∧
      processLine 176 "Bresser-5in1"
        "\x7b\"id\":99,\"model\":\"Bresser-5in1\"\x7d" = LineResult.skip :=
  ⟨rfl,
    (c9_station_filter 176 "Bresser-5in1"
      "\x7b\"id\":99,\"model\":\"Bresser-5in1\"\x7d"
      [("id", PyVal.int 99), ("model", PyVal.str "Bresser-5in1")]
      rfl (Or.inl rfl)).1⟩

lemma pyCoerce_ne_connectionError (d : Dtype) (p : Int) (v : PyVal) :
    pyCoerce d p v ≠ Except.error PyErr.connectionError := by
  cases d <;> cases v <;>
    simp_all [pyCoerce, pyFloatE, pyIntE] <;>
    first
    | (rename_i s
       cases hf : pyFloatOfString? s <;> simp [hf])
    | (rename_i s
       cases hf : pyIntOfString? s <;> simp [hf])

lemma dictGet_state_dict (c a : PyVal) :
    dictGet [("state", c), ("attributes", a)] "state" = c := by
  simp [dictGet]

lemma formatEntityUrl_ok {api : HassAPI} {eid : String}
    (hurl : (splitOnChar '.' eid.data).length = 2) :
    formatEntityUrl api eid =
      Except.ok (urljoinModel api.url ("states/" ++ eid)) := by
  unfold formatEntityUrl
  rw [if_neg (by simp [hurl])]

lemma formatEntityUrl_err {api : HassAPI} {eid : String}
    (hurl : ¬ (splitOnChar '.' eid.data).length = 2) :
    formatEntityUrl api eid = Except.error PyErr.valueError := by
  unfold formatEntityUrl
  rw [if_pos hurl]

lemma post_entity_state_posts {api : HassAPI} {eid : String}
    {sd : List (String × PyVal)} {r : Option Nat}
    (hurl : (splitOnChar '.' eid.data).length = 2)
    (hstate : pyIsNone (dictGet sd "state") = false) :
    HassAPI.post_entity_state api eid sd r =
      ((match r with
        | Option.none => Except.error PyErr.connectionError
        | some status => Except.ok (some status)), 1) := by
  simp only [HassAPI.post_entity_state, formatEntityUrl_ok hurl, hstate,
    Bool.false_eq_true, if_false]
  cases r <;> rfl

lemma update_posts {e : HassEntity} {v c : PyVal} {r : Option Nat}
    (hc : pyCoerce e.dtype e.precision v = Except.ok c)
    (hid : (e.idempotent && pyEqV e.state c) = false)
    (hurl : (splitOnChar '.' e.entity_id.data).length = 2) :
    e.update v r = Except.ok ({ e with state := c }, 1) := by
  have hcd := pyCoerce_isDtypeVal hc
  have hnn : pyIsNone c = false := pyIsNone_eq_false (isDtypeVal_ne_none hcd)
  simp only [HassEntity.update, hc, hid, Bool.false_eq_true, if_false]
  rw [post_entity_state_posts hurl (by rw [dictGet_state_dict]; exact hnn)]
  cases r <;> rfl

lemma updateStep_posts {e : HassEntity} {v c : PyVal} {r : Option Nat}
    (hc : pyCoerce e.dtype e.precision v = Except.ok c)
    (hid : (e.idempotent && pyEqV e.state c) = false)
    (hurl : (splitOnChar '.' e.entity_id.data).length = 2) :
    updateStep e v r = ({ e with state := c }, 1) := by
  unfold updateStep
  rw [update_posts hc hid hurl]

lemma updateStep_suppressed {e : HassEntity} {v c : PyVal} {r : Option Nat}
    (hc : pyCoerce e.dtype e.precision v = Except.ok c)
    (hid : (e.idempotent && pyEqV e.state c) = true) :
    updateStep e v r = (e, 0) := by
  unfold updateStep
  rw [update_of_ok_suppressed hc hid]

/-- C3.  For every freshly constructed entity and every sequence of
`update` calls (raw values paired with their transport outcomes), the
cached state after the run is exactly the fold of the *successful
coercions* over the raw values alone: the transport outcomes do not appear
on the right-hand side, so a failed or skipped publish never rolls the
cache back, and a failed coercion leaves it at the previous value. -/
theorem c3_cache_last_coerced (entity_id : String) (api : HassAPI)
    (d : Dtype) (u : String) (p : Int) (icon : String) (idem : Bool)
    (inputs : List (PyVal × Option Nat)) :
    (runUpdates (HassEntity.make entity_id api d u p icon idem)
        inputs).state =
      lastCoerced d p PyVal.none (inputs.map Prod.fst) :=
  runUpdates_state_eq d p inputs _ rfl rfl (Or.inl rfl)

/-- C5.  When the coercion of the raw value fails (with any error kind),
`update` abandons the call: the entity — in particular its cached state —
is exactly as before, and no HTTP request is issued. -/
theorem c5_coercion_failure_frame (e : HassEntity) (v : PyVal)
    (r : Option Nat) (err : PyErr)
    (h : pyCoerce e.dtype e.precision v = Except.error err) :
    updateStep e v r = (e, 0) := by
  unfold updateStep
  by_cases hv : err = PyErr.valueError
  · subst hv
    rw [update_of_valueError h]
  · rw [update_of_otherError h hv]

theorem c5_witness :
    pyCoerce entPreSet.dtype entPreSet.precision (PyVal.str "abc") =
        Except.error PyErr.valueError ∧
      updateStep entPreSet (PyVal.str "abc") (some 200) = (entPreSet, 0) :=
  ⟨rfl, c5_coercion_failure_frame entPreSet (PyVal.str "abc") (some 200)
    PyErr.valueError rfl⟩

/-- C4 counterexample.  An idempotent entity with a well-formed id whose
cached state already equals the coerced value (the state reached after one
earlier successful `update(14.6)`) gets `update(14.6)` twice in a row: the
value coerces successfully, yet *zero* HTTP posts are issued — not exactly
one as claimed for every idempotent entity. -/
theorem c4_counterexample :
    pyCoerce entPreSet.dtype entPreSet.precision (PyVal.float (73 / 5)) =
        Except.ok (PyVal.float (pyRound (73 / 5) 1)) ∧
      (updateStep entPreSet (PyVal.float (73 / 5)) (some 200)).2 +
          (updateStep
            (updateStep entPreSet (PyVal.float (73 / 5)) (some 200)).1
            (PyVal.float (73 / 5)) (some 200)).2 = 0 :=
  ⟨rfl, by with_unfolding_all rfl⟩

/-- C4 (amended).  For every *freshly constructed* entity with a
*well-formed entity id* and every value that coerces successfully: if the
idempotence flag is set, calling `update` twice in a row issues exactly one
HTTP post — the second call makes no network call and leaves the entity
unchanged; if the flag is not set, the two calls issue two posts. -/
theorem c4_amended (eid : String) (api : HassAPI) (d : Dtype) (u : String)
    (p : Int) (ic : String) (v c : PyVal) (r1 r2 r3 r4 : Option Nat)
    (hurl : (splitOnChar '.' eid.data).length = 2)
    (hc : pyCoerce d p v = Except.ok c) :
    ((updateStep (HassEntity.make eid api d u p ic true) v r1).2 = 1 ∧
     (updateStep (updateStep (HassEntity.make eid api d u p ic true) v r1).1
         v r2).2 = 0 ∧
     (updateStep (updateStep (HassEntity.make eid api d u p ic true) v r1).1
         v r2).1 =
       (updateStep (HassEntity.make eid api d u p ic true) v r1).1) ∧
    ((updateStep (HassEntity.make eid api d u p ic false) v r3).2 = 1 ∧
     (updateStep (updateStep (HassEntity.make eid api d u p ic false) v
         r3).1 v r4).2 = 1) := by
  have hcd := pyCoerce_isDtypeVal hc
  have hne := pyEqV_none_eq_false (isDtypeVal_ne_none hcd)
  have hrefl := pyEqV_refl_of_isDtypeVal hcd
  constructor
  · have h1 : updateStep (HassEntity.make eid api d u p ic true) v r1 =
        ({ HassEntity.make eid api d u p ic true with state := c }, 1) :=
      updateStep_posts hc (by simp [HassEntity.make, hne]) hurl
    have h2 : updateStep
        ({ HassEntity.make eid api d u p ic true with state := c }, 1).1
        v r2 =
        ({ HassEntity.make eid api d u p ic true with state := c }, 0) :=
      updateStep_suppressed hc (by simp [HassEntity.make, hrefl])
    rw [h1]
    exact ⟨rfl, by rw [h2], by rw [h2]⟩
  · have h3 : updateStep (HassEntity.make eid api d u p ic false) v r3 =
        ({ HassEntity.make eid api d u p ic false with state := c }, 1) :=
      updateStep_posts hc (by simp [HassEntity.make]) hurl
    have h4 : updateStep
        ({ HassEntity.make eid api d u p ic false with state := c }, 1).1
        v r4 =
        ({ HassEntity.make eid api d u p ic false with state := c }, 1) :=
      updateStep_posts hc (by simp [HassEntity.make]) hurl
    rw [h3]
    exact ⟨rfl, by rw [h4]⟩

theorem c4_witness :
    (splitOnChar '.' "sensor.kitchen_temp".data).length = 2 ∧
      pyCoerce Dtype.float 1 (PyVal.float (73 / 5)) =
        Except.ok (PyVal.float (pyRound (73 / 5) 1)) ∧
      (updateStep
        (HassEntity.make "sensor.kitchen_temp" apiSample Dtype.float "" 1 ""
          true) (PyVal.float (73 / 5)) (some 200)).2 = 1 :=
  ⟨rfl, rfl,
    ((c4_amended "sensor.kitchen_temp" apiSample Dtype.float "" 1 ""
      (PyVal.float (73 / 5)) (PyVal.float (pyRound (73 / 5) 1))
      (some 200) (some 200) (some 200) (some 200) rfl rfl).1).1⟩

/-- C6 counterexample.  `update` on a float-typed entity with the raw value
`None` raises: `float(None)` is a `TypeError`, and the coercion `try`
catches only `ValueError`, so the exception propagates to the caller —
contradicting the claim that `update` returns normally on every raw
value. -/
theorem c6_counterexample :
    (HassEntity.make "sensor.kitchen_temp" apiSample Dtype.float "°C" 1
        "" false).update PyVal.none (some 200) =
      Except.error PyErr.typeError :=
  rfl

/-- C6 (amended).  For every entity, every *scalar* raw value (a string,
number or boolean — not `None` and not a container) and every transport
outcome, `update` returns normally: coercion `ValueError`s and all publish
failures are absorbed.  (Only the `TypeError` of coercing `None`/containers
into a float- or int-typed entity escapes.) -/
theorem c6_amended (e : HassEntity) (v : PyVal) (r : Option Nat)
    (h : isScalar v) :
    ∃ out, e.update v r = Except.ok out := by
  cases hc : pyCoerce e.dtype e.precision v with
  | error err =>
    cases err with
    | valueError => exact ⟨(e, 0), update_of_valueError hc⟩
    | typeError => exact absurd hc (isScalar_pyCoerce_ne_typeError h)
    | connectionError =>
      exact absurd hc (pyCoerce_ne_connectionError e.dtype e.precision v)
  | ok c =>
    cases hid : e.idempotent && pyEqV e.state c with
    | true => exact ⟨(e, 0), update_of_ok_suppressed hc hid⟩
    | false =>
      obtain ⟨n, hn⟩ := @update_of_ok_post _ _ _ r hc hid
      exact ⟨_, hn⟩

theorem c6_witness :
    isScalar (PyVal.str "abc") ∧
      ∃ out, (HassEntity.make "sensor.kitchen_temp" apiSample Dtype.float ""
        1 "" false).update (PyVal.str "abc") Option.none = Except.ok out :=
  ⟨trivial,
    c6_amended
      (HassEntity.make "sensor.kitchen_temp" apiSample Dtype.float "" 1 ""
        false) (PyVal.str "abc") Option.none trivial⟩

/-- C7 counterexample.  A state object whose `state` value is the *empty
string* is not skipped: the code only checks `state.get("state") is None`,
so the empty state is posted over HTTP — contradicting the claim that an
empty state value makes the call a no-op. -/
theorem c7_counterexample :
    HassAPI.post_entity_state apiSample "sensor.kitchen_temp"
        [("state", PyVal.str "")] (some 200) =
      (Except.ok (some 200), 1) :=
  rfl

/-- C7 (amended).  For every well-formed entity id, a state object whose
`state` key is absent or `None` makes `post_entity_state` a no-op: no HTTP
request, no exception, result `None`.  (An empty-*string* state is still
posted.) -/
theorem c7_amended (api : HassAPI) (eid : String)
    (sd : List (String × PyVal)) (r : Option Nat)
    (hurl : (splitOnChar '.' eid.data).length = 2)
    (hnone : dictGet sd "state" = PyVal.none) :
    HassAPI.post_entity_state api eid sd r = (Except.ok Option.none, 0) := by
  simp [HassAPI.post_entity_state, formatEntityUrl_ok hurl, hnone, pyIsNone]

theorem c7_witness :
    (splitOnChar '.' "sensor.kitchen_temp".data).length = 2 ∧
      dictGet [] "state" = PyVal.none ∧
      HassAPI.post_entity_state apiSample "sensor.kitchen_temp" []
        (some 200) = (Except.ok Option.none, 0) :=
  ⟨rfl, rfl, c7_amended apiSample "sensor.kitchen_temp" [] (some 200) rfl rfl⟩

/-- C8.  `get_entity_state` and `post_entity_state` accept an entity id
exactly when splitting it on `"."` gives two parts (exactly one separator);
otherwise both raise `ValueError` from `_format_entity_url` with *zero*
HTTP requests issued. -/
theorem c8_entity_id_validation (api : HassAPI) (eid : String)
    (sd : List (String × PyVal)) (rg rp : Option Nat) :
    ((splitOnChar '.' eid.data).length = 2 →
        ∃ u, formatEntityUrl api eid = Except.ok u) ∧
      (¬ (splitOnChar '.' eid.data).length = 2 →
        formatEntityUrl api eid = Except.error PyErr.valueError ∧
          HassAPI.get_entity_state api eid rg =
            (Except.error PyErr.valueError, 0) ∧
          HassAPI.post_entity_state api eid sd rp =
            (Except.error PyErr.valueError, 0)) := by
  constructor
  · intro h2
    exact ⟨_, formatEntityUrl_ok h2⟩
  · intro h2
    have hfe := @formatEntityUrl_err api _ h2
    exact ⟨hfe, by simp [HassAPI.get_entity_state, hfe],
      by simp [HassAPI.post_entity_state, hfe]⟩

theorem c8_witness :
    (splitOnChar '.' "sensor.kitchen_temp".data).length = 2 ∧
      (∃ u, formatEntityUrl apiSample "sensor.kitchen_temp" =
        Except.ok u) ∧
      ¬ (splitOnChar '.' "kitchen_temp".data).length = 2 ∧
      HassAPI.get_entity_state apiSample "kitchen_temp" (some 200) =
        (Except.error PyErr.valueError, 0) ∧
      ¬ (splitOnChar '.' "a.b.c".data).length = 2 ∧
      HassAPI.post_entity_state apiSample "a.b.c"
        [("state", PyVal.str "1")] (some 200) =
        (Except.error PyErr.valueError, 0) :=
  ⟨rfl,
    (c8_entity_id_validation apiSample "sensor.kitchen_temp" [] (some 200)
      (some 200)).1 rfl,
    by decide,
    ((c8_entity_id_validation apiSample "kitchen_temp" [] (some 200)
      (some 200)).2 (by decide)).2.1,
    by decide,
    ((c8_entity_id_validation apiSample "a.b.c" [("state", PyVal.str "1")]
      (some 200) (some 200)).2 (by decide)).2.2⟩

/-- C10 counterexample.  A freshly constructed idempotent entity whose
entity id is malformed (`"kitchen_temp"`): the first `update` with a
successfully coercing value issues *no* HTTP post, because
`_format_entity_url` raises `ValueError` before `s.post` and `update`
swallows it — contradicting the claim that the first successful update
always issues an HTTP post. -/
theorem c10_counterexample :
    pyCoerce Dtype.float 1 (PyVal.float 1) =
        Except.ok (PyVal.float (pyRound 1 1)) ∧
      (HassEntity.make "kitchen_temp" apiSample Dtype.float "" 1 ""
        true).state = PyVal.none ∧
      (updateStep
        (HassEntity.make "kitchen_temp" apiSample Dtype.float "" 1 "" true)
        (PyVal.float 1) (some 200)).2 = 0 :=
  ⟨rfl, rfl, rfl⟩

/-- C10 (amended).  Every freshly constructed entity has the `None`
sentinel as cached state; a successfully coerced value is never `==` to
`None`; and — for a *well-formed entity id* — the first `update` whose
value coerces successfully issues exactly one HTTP post even when the
idempotence flag is set, so idempotent suppression can only begin with the
second successful update. -/
theorem c10_amended (eid : String) (api : HassAPI) (d : Dtype) (u : String)
    (p : Int) (ic : String) (idem : Bool) (v c : PyVal) (r : Option Nat)
    (hurl : (splitOnChar '.' eid.data).length = 2)
    (hc : pyCoerce d p v = Except.ok c) :
    (HassEntity.make eid api d u p ic idem).state = PyVal.none ∧
      pyEqV PyVal.none c = false ∧
      updateStep (HassEntity.make eid api d u p ic idem) v r =
        ({ HassEntity.make eid api d u p ic idem with state := c }, 1) := by
  have hcd := pyCoerce_isDtypeVal hc
  have hne := pyEqV_none_eq_false (isDtypeVal_ne_none hcd)
  exact ⟨rfl, hne,
    updateStep_posts hc (by simp [HassEntity.make, hne]) hurl⟩

theorem c10_witness :
    (splitOnChar '.' "sensor.kitchen_temp".data).length = 2 ∧
      pyCoerce Dtype.float 1 (PyVal.float (73 / 5)) =
        Except.ok (PyVal.float (pyRound (73 / 5) 1)) ∧
      (HassEntity.make "sensor.kitchen_temp" apiSample Dtype.float "" 1 ""
        true).state = PyVal.none ∧
      (updateStep
        (HassEntity.make "sensor.kitchen_temp" apiSample Dtype.float "" 1 ""
          true) (PyVal.float (73 / 5)) (some 200)).2 = 1 := by
  refine ⟨rfl, rfl, rfl, ?_⟩
  rw [(c10_amended "sensor.kitchen_temp" apiSample Dtype.float "" 1 "" true
    (PyVal.float (73 / 5)) (PyVal.float (pyRound (73 / 5) 1)) (some 200)
    rfl rfl).2.2]
